import Mathlib

/-
Verification of the PrivNurseAI discharge-summary pipeline.

This file gives a shallow embedding, in Lean 4, of the pure data-shaping
core of the repository:

 * `Data_Preprocessing/PrivNurse_data_preprocessing.py`
   (text cleaning, the word-count length classifier, nursing-event
   formatting, per-patient event assembly, and the XML document builder);
 * `privnurse_gemma3n/backend/routes/discharge_routes.py`
   (text cleaning with XML escaping, the character-count length
   classifier, diagnosis normalisation, event formatting, and the
   live discharge-XML builder);
 * `privnurse_gemma3n/backend/services/ollama_service.py`
   (the three-stage `extract_relevant_text` reconciler and the
   surrounding `validation_text` error classification).

Python values flowing through these functions are modelled by the
inductive type `PyVal`; a raised Python exception is modelled by
`Except`; `datetime` timestamps are modelled by `Nat` encodings that
preserve chronological order.  Library functions used by the source
(`str.replace`, `str.strip`, `re.sub` for the two fixed patterns,
`json.loads`, `ast.literal_eval`, stable `list.sort`) are embedded as
executable Lean functions, faithful on the fragment the source
exercises; each notes its modelling scope in a comment.
-/

namespace PrivNurse

/-! ## The Python value model -/

/-- A JSON-serialisable Python value: `None`, `bool`, `int`, `str`,
`list`, or `dict` with string keys (the only dict keys these programs
use).  Floats do not occur in the modelled code paths. -/
inductive PyVal where
  | vNone
  | vBool (b : Bool)
  | vInt (n : Int)
  | vStr (s : String)
  | vList (xs : List PyVal)
  | vDict (kvs : List (String × PyVal))
deriving Repr

/-- Python truthiness (`bool(v)`): `None`, `False`, `0`, `""`, `[]`,
and an empty dict are falsy, everything else truthy. -/
def pyTruthy : PyVal → Bool
  | .vNone => false
  | .vBool b => b
  | .vInt n => n != 0
  | .vStr s => s ≠ ""
  | .vList xs => ¬ xs.isEmpty
  | .vDict kvs => ¬ kvs.isEmpty

/-- `d.get(k)` on a dict: the value stored under `k`.  A Python dict
keeps the last value written for a duplicated key, hence the reversed
search (the modelled inputs have no duplicate keys). -/
def lookupKv (k : String) (kvs : List (String × PyVal)) : Option PyVal :=
  (kvs.reverse.find? (fun kv => kv.1 == k)).map (fun kv => kv.2)

/-- `d.get(k, default)`. -/
def lookupKvD (k : String) (kvs : List (String × PyVal)) (dflt : PyVal) : PyVal :=
  (lookupKv k kvs).getD dflt

mutual

/-- Python `str(v)`.  A string renders as itself; containers render as
their `repr`. -/
def pyStrOf : PyVal → String
  | .vNone => "None"
  | .vBool true => "True"
  | .vBool false => "False"
  | .vInt n => toString n
  | .vStr s => s
  | .vList xs => "[" ++ String.intercalate ", " (pyReprListOf xs) ++ "]"
  | .vDict kvs => "\x7b" ++ String.intercalate ", " (pyReprKvsOf kvs) ++ "\x7d"

/-- Python `repr(v)`.  Strings are rendered between single quotes (the
quote chosen by CPython when the text holds no quote of its own, the
only case arising here). -/
def pyReprOf : PyVal → String
  | .vNone => "None"
  | .vBool true => "True"
  | .vBool false => "False"
  | .vInt n => toString n
  | .vStr s => "'" ++ s ++ "'"
  | .vList xs => "[" ++ String.intercalate ", " (pyReprListOf xs) ++ "]"
  | .vDict kvs => "\x7b" ++ String.intercalate ", " (pyReprKvsOf kvs) ++ "\x7d"

/-- The comma-joined element reprs of a list. -/
def pyReprListOf : List PyVal → List String
  | [] => []
  | x :: xs => pyReprOf x :: pyReprListOf xs

/-- The comma-joined `'key': value` reprs of a dict. -/
def pyReprKvsOf : List (String × PyVal) → List String
  | [] => []
  | kv :: kvs => ("'" ++ kv.1 ++ "': " ++ pyReprOf kv.2) :: pyReprKvsOf kvs

end

/-! ## String helpers shared by both programs -/

/-- One pass of Python `str.replace`: fuel-indexed scan over the
character list; at each position a match of `pat` is replaced by `rep`
and scanning resumes after the replacement.  `fuel` is the length of
the scanned text, enough because every step consumes at least one
character of it.  (Python's behaviour for an empty pattern is not
modelled; every pattern used in the source is non-empty.) -/
def pyReplaceGo (pat rep : List Char) : Nat → List Char → List Char
  | 0, hay => hay
  | _, [] => []
  | fuel + 1, c :: rest =>
    if pat ≠ [] ∧ pat.isPrefixOf (c :: rest) then
      rep ++ pyReplaceGo pat rep fuel (List.drop (pat.length - 1) rest)
    else
      c :: pyReplaceGo pat rep fuel rest

/-- Python `s.replace(pat, rep)` (all occurrences, left to right). -/
def pyReplace (s pat rep : String) : String :=
  String.mk (pyReplaceGo pat.data rep.data s.data.length s.data)

/-- Python `needle in hay` on strings. -/
def containsSubstring (needle hay : String) : Bool :=
  hay.data.tails.any (fun t => needle.data.isPrefixOf t)

/-- Python `s.startswith(pre)`. -/
def pyStartsWith (pre s : String) : Bool :=
  pre.data.isPrefixOf s.data

/-- The whitespace stripped by Python `str.strip()` (the ASCII part;
the modelled inputs hold no exotic Unicode whitespace). -/
def isPyWs (c : Char) : Bool :=
  c == ' ' || c == '\t' || c == '\n' || c == '\r' || c == '\x0b' || c == '\x0c'

/-- Python `s.strip()`. -/
def pyStrip (s : String) : String :=
  String.mk (((s.data.dropWhile isPyWs).reverse.dropWhile isPyWs).reverse)

/-- Python `s.lower()` (ASCII case folding, all the categories use). -/
def pyLower (s : String) : String :=
  String.mk (s.data.map Char.toLower)

/-- Python `s.zfill(4)` on the unsigned time strings the preprocessing
feeds it. -/
def zfill4 (s : String) : String :=
  if 4 ≤ s.data.length then s
  else String.mk (List.replicate (4 - s.data.length) '0') ++ s

/-- `re.sub(r'</?p>', '', ·)`: a single left-to-right scan removing
each occurrence of `</p>` or `<p>` (at a position where both could
start, the regex takes `</p>`, the only possibility). -/
def stripPTagsGo : Nat → List Char → List Char
  | 0, hay => hay
  | _, [] => []
  | fuel + 1, c :: rest =>
    if ['<', '/', 'p', '>'].isPrefixOf (c :: rest) then
      stripPTagsGo fuel (List.drop 3 rest)
    else if ['<', 'p', '>'].isPrefixOf (c :: rest) then
      stripPTagsGo fuel (List.drop 2 rest)
    else
      c :: stripPTagsGo fuel rest

/-- `re.sub(r'</?p>', '', s)`. -/
def stripPTags (s : String) : String :=
  String.mk (stripPTagsGo s.data.length s.data)

/-- The XML escaping of `routes/discharge_routes.py::clean_text`,
lines 35-39: the five reserved characters, ampersand first. -/
def escapeXmlChars (s : String) : String :=
  pyReplace (pyReplace (pyReplace (pyReplace (pyReplace s
    "&" "&amp;") "<" "&lt;") ">" "&gt;") "\"" "&quot;") "'" "&apos;"

/-- Decimal digits to a Nat. -/
def digitsToNat (ds : List Char) : Nat :=
  ds.foldl (fun a c => a * 10 + (c.toNat - '0'.toNat)) 0

/-- Python `int(s)` on a string: surrounding whitespace is ignored, an
optional sign precedes one or more digits; anything else raises
`ValueError` (`none`). -/
def pyIntOfStr (s : String) : Option Int :=
  match (pyStrip s).data with
  | '-' :: ds =>
    if ds ≠ [] ∧ ds.all Char.isDigit then some (-(digitsToNat ds : Int)) else none
  | '+' :: ds =>
    if ds ≠ [] ∧ ds.all Char.isDigit then some (digitsToNat ds : Int) else none
  | ds =>
    if ds ≠ [] ∧ ds.all Char.isDigit then some (digitsToNat ds : Int) else none

/-- Python `int(v)` on a scalar cell: ints pass through, bools become
0/1, strings are parsed, and `None`, lists and dicts raise
`TypeError` (`none`). -/
def pyIntOf : PyVal → Option Int
  | .vInt n => some n
  | .vBool b => some (if b then 1 else 0)
  | .vStr s => pyIntOfStr s
  | _ => none

/-! ## Clinical events and the stable timestamp sort

Both assemblers build `(timestamp, xml_string)` events and sort them
with Python's stable `list.sort(key=lambda e: e.timestamp)`.  A
timestamp is modelled as the `Nat` `YYYYMMDDHHMM` (chronological order
is numeric order on this encoding). -/

/-- A clinical event: the `Event` dataclass of the preprocessing and
the `(timestamp, xml_string)` tuples of the backend route. -/
structure Event where
  ts : Nat
  xml : String
deriving Repr, DecidableEq

/-- The comparison `list.sort(key=lambda e: e.timestamp)` sorts by. -/
def eventLE (a b : Event) : Bool := a.ts ≤ b.ts

/-- Python's `list.sort(key=lambda e: e.timestamp)`: a stable sort on
the timestamp key. -/
def sortEventsByTimestamp (events : List Event) : List Event :=
  events.mergeSort eventLE

/-- Zero-pad a Nat to two decimal digits (`strftime` field). -/
def pad2 (n : Nat) : String :=
  if n < 10 then "0" ++ toString n else toString n

/-- Zero-pad a Nat to four decimal digits (`strftime` `%Y`). -/
def pad4 (n : Nat) : String :=
  if n < 10 then "000" ++ toString n
  else if n < 100 then "00" ++ toString n
  else if n < 1000 then "0" ++ toString n
  else toString n

/-- `timestamp.strftime('%Y-%m-%d %H:%M:%S')` on the `YYYYMMDDHHMM`
encoding (seconds are always zero at the modelled minute resolution). -/
def formatTimestamp (t : Nat) : String :=
  pad4 (t / 100000000) ++ "-" ++ pad2 (t / 1000000 % 100) ++ "-" ++
    pad2 (t / 10000 % 100) ++ " " ++ pad2 (t / 100 % 100) ++ ":" ++
    pad2 (t % 100) ++ ":00"

/-- `date.strftime('%Y-%m-%d')` on the `YYYYMMDD` encoding. -/
def formatDate (d : Nat) : String :=
  pad4 (d / 10000) ++ "-" ++ pad2 (d / 100 % 100) ++ "-" ++ pad2 (d % 100)

/-! ## The preprocessing pipeline
(`Data_Preprocessing/PrivNurse_data_preprocessing.py`) -/

namespace Preprocessing

/-- `pd.isna` on a cell (a missing/NaN cell is modelled `vNone`). -/
def pdIsNa : PyVal → Bool
  | .vNone => true
  | _ => false

/-- `pd.notna` on a cell. -/
def pdNotNa (v : PyVal) : Bool := ¬ pdIsNa v

/-- `TextProcessor.clean_text` (preprocessing, lines 94-102): NaN/None
becomes `""`; otherwise stringify, drop every `<p>`/`</p>`, and strip
surrounding whitespace.  No XML escaping in this variant. -/
def clean_text (text : PyVal) : String :=
  if pdIsNa text then "" else pyStrip (stripPTags (pyStrOf text))

/-- `LengthClassifier.get_length_hint` (preprocessing, lines 178-193):
NaN gives `"unknown"`; `int(word_count)` failing gives `"unknown"`;
otherwise the `<400` / `<700` word thresholds. -/
def get_length_hint (word_count : PyVal) : String :=
  if pdIsNa word_count then "unknown"
  else
    match pyIntOf word_count with
    | none => "unknown"
    | some count =>
      if count < 400 then "short"
      else if count < 700 then "medium"
      else "long"

/-- A row of the 護理紀錄 (nursing record) sheet: the date and time
cells after `astype(str)`, and the five-plus-two content cells. -/
structure NursingRow where
  dateCell : String
  timeCell : String
  categoryCell : PyVal
  valueCell : PyVal
  recordS : PyVal
  recordO : PyVal
  recordI : PyVal
  recordE : PyVal
  recordN : PyVal
deriving Repr

/-- `pd.to_datetime(s, format='%Y%m%d%H%M', errors='coerce')`: exactly
twelve digits with month 1-12, day 1-31, hour 0-23, minute 0-59 parse
to the `YYYYMMDDHHMM` Nat; anything else coerces to NaT (`none`).
(The per-month day count of the real calendar is abstracted to 31.) -/
def parseYmdHm (s : String) : Option Nat :=
  match s.data with
  | [y1, y2, y3, y4, o1, o2, d1, d2, h1, h2, m1, m2] =>
    let ds := [y1, y2, y3, y4, o1, o2, d1, d2, h1, h2, m1, m2]
    let month := digitsToNat [o1, o2]
    let day := digitsToNat [d1, d2]
    let hour := digitsToNat [h1, h2]
    let minute := digitsToNat [m1, m2]
    if ds.all Char.isDigit ∧ 1 ≤ month ∧ month ≤ 12 ∧ 1 ≤ day ∧ day ≤ 31 ∧
        hour ≤ 23 ∧ minute ≤ 59 then
      some (digitsToNat ds)
    else none
  | _ => none

/-- Lines 210-215: the 時間 cell is zero-filled to four digits and
stripped of `:`, concatenated after the 日期 cell, and parsed as
`%Y%m%d%H%M` with `errors='coerce'`. -/
def rowTimestamp (r : NursingRow) : Option Nat :=
  parseYmdHm (r.dateCell ++ pyReplace (zfill4 r.timeCell) ":" "")

/-- The body of the per-row loop of `format_nursing_events`
(lines 220-252): the optional `<VitalSign .../>` part, the SOAP parts
for non-empty cleaned contents, and `none` when no part was built
(such a row appends no event). -/
def nursingEventXml (r : NursingRow) (t : Nat) : Option Event :=
  let vitalParts :=
    if pdNotNa r.categoryCell ∧ pdNotNa r.valueCell then
      ["<VitalSign type=\"" ++ pyStrOf r.categoryCell ++ "\" value=\"" ++
        clean_text r.valueCell ++ "\" />"]
    else []
  let soapFields := [("Subjective", r.recordS), ("Objective", r.recordO),
    ("Intervention", r.recordI), ("Evaluation", r.recordE),
    ("NarrativeNote", r.recordN)]
  let soapParts := soapFields.filterMap (fun tf =>
    let content := clean_text tf.2
    if content = "" then none
    else some ("<" ++ tf.1 ++ ">" ++ content ++ "</" ++ tf.1 ++ ">"))
  let xmlParts := vitalParts ++
    (if soapParts.isEmpty then []
     else ["<SOAPNote>\n" ++ String.join soapParts ++ "\n</SOAPNote>"])
  if xmlParts.isEmpty then none
  else some ⟨t, "<NursingEvent timestamp=\"" ++ formatTimestamp t ++ "\">\n" ++
    String.intercalate "\n" xmlParts ++ "\n</NursingEvent>"⟩

/-- `EventFormatter.format_nursing_events` (lines 201-254): timestamps
are parsed vectorised with `errors='coerce'`, rows with NaT are
dropped (`dropna(subset=['timestamp'])`), and the loop appends an
event per remaining row that yields at least one xml part. -/
def format_nursing_events (rows : List NursingRow) : List Event :=
  let withTs := rows.map (fun r => (r, rowTimestamp r))
  let validRows := withTs.filterMap (fun rt => rt.2.map (fun t => (rt.1, t)))
  validRows.filterMap (fun rt => nursingEventXml rt.1 rt.2)

/-- Lines 330-346 of `process_patient_record`: events are collected by
extending in the order consultations, labs, nursing, and then sorted
stably by timestamp. -/
def process_patient_record_events
    (consultEvents labEvents nursingEvents : List Event) : List Event :=
  sortEventsByTimestamp (consultEvents ++ labEvents ++ nursingEvents)

/-- The five summary cells of a 出院摘要 (discharge summary) row used
by `_build_input_text`: 主要診斷, 次要診斷, 過去病史, 主訴, 現在病史. -/
structure SummaryRow where
  primaryDx : PyVal
  secondaryDx : PyVal
  pastHistory : PyVal
  chiefComplaint : PyVal
  presentIllness : PyVal
deriving Repr

/-- The tag/cell pairs of `_build_input_text`, in source order. -/
def summaryFields (row : SummaryRow) : List (String × PyVal) :=
  [("PrimaryDiagnosis", row.primaryDx),
   ("SecondaryDiagnosis", row.secondaryDx),
   ("PastMedicalHistory", row.pastHistory),
   ("ChiefComplaint", row.chiefComplaint),
   ("PresentIllness", row.presentIllness)]

/-- `PatientDataProcessor._build_input_text` (lines 371-395): a summary
part is appended only when the cleaned cell is non-empty (`if
content:`), and the parts are joined with newlines inside the fixed
`<PatientEncounter>` template. -/
def build_input_text (row : SummaryRow) (eventsXml lengthHint : String) : String :=
  let summaryParts := (summaryFields row).filterMap (fun tf =>
    let content := clean_text tf.2
    if content = "" then none
    else some ("<" ++ tf.1 ++ ">" ++ content ++ "</" ++ tf.1 ++ ">"))
  "<PatientEncounter summary_length_style=\"" ++ lengthHint ++ "\">\n" ++
    "    <Summary>\n        " ++ String.intercalate "\n" summaryParts ++
    "\n    </Summary>\n    <ChronologicalEvents>\n        " ++ eventsXml ++
    "\n    </ChronologicalEvents>\n</PatientEncounter>"

end Preprocessing

/-! ## `json.loads`

A strict JSON parser over the fragment the programs exchange: objects
with string keys, arrays, strings, integers, `true`/`false`/`null`.
As in Python's `json` module, a backslash followed by anything outside
the eight JSON escapes (plus `\uXXXX`) is an error, raw control
characters inside strings are an error, and trailing text after the
value is an error.  Floats are not modelled (`none`); none occur in
the verified inputs. -/

/-- JSON insignificant whitespace. -/
def jsonWs (c : Char) : Bool :=
  c == ' ' || c == '\t' || c == '\n' || c == '\r'

/-- Skip insignificant whitespace. -/
def jsonSkipWs (cs : List Char) : List Char := cs.dropWhile jsonWs

/-- Hex digit value. -/
def hexVal (c : Char) : Option Nat :=
  if '0' ≤ c ∧ c ≤ '9' then some (c.toNat - '0'.toNat)
  else if 'a' ≤ c ∧ c ≤ 'f' then some (c.toNat - 'a'.toNat + 10)
  else if 'A' ≤ c ∧ c ≤ 'F' then some (c.toNat - 'A'.toNat + 10)
  else none

/-- The body of a JSON string after the opening quote: accumulates
characters until the closing quote; a backslash admits exactly the
JSON escape set, anything else fails the parse. -/
def jsonParseStrGo : Nat → List Char → List Char → Option (String × List Char)
  | 0, _, _ => none
  | fuel + 1, acc, cs =>
    match cs with
    | [] => none
    | '"' :: rest => some (String.mk acc.reverse, rest)
    | '\\' :: e :: rest =>
      match e with
      | '"' => jsonParseStrGo fuel ('"' :: acc) rest
      | '\\' => jsonParseStrGo fuel ('\\' :: acc) rest
      | '/' => jsonParseStrGo fuel ('/' :: acc) rest
      | 'b' => jsonParseStrGo fuel ('\x08' :: acc) rest
      | 'f' => jsonParseStrGo fuel ('\x0c' :: acc) rest
      | 'n' => jsonParseStrGo fuel ('\n' :: acc) rest
      | 'r' => jsonParseStrGo fuel ('\r' :: acc) rest
      | 't' => jsonParseStrGo fuel ('\t' :: acc) rest
      | 'u' =>
        match rest with
        | h1 :: h2 :: h3 :: h4 :: rest' =>
          match hexVal h1, hexVal h2, hexVal h3, hexVal h4 with
          | some a, some b, some c, some d =>
            jsonParseStrGo fuel (Char.ofNat (((a * 16 + b) * 16 + c) * 16 + d) :: acc) rest'
          | _, _, _, _ => none
        | _ => none
      | _ => none
    | c :: rest =>
      if c.toNat < 32 then none else jsonParseStrGo fuel (c :: acc) rest

/-- A JSON integer (optional minus, digits); a following `.`, `e` or
`E` would be a float, outside the modelled fragment. -/
def jsonParseNum (cs : List Char) : Option (PyVal × List Char) :=
  let (neg, cs') := match cs with
    | '-' :: rest => (true, rest)
    | rest => (false, rest)
  let digits := cs'.takeWhile Char.isDigit
  let rest := cs'.dropWhile Char.isDigit
  if digits.isEmpty then none
  else
    match rest with
    | '.' :: _ => none
    | 'e' :: _ => none
    | 'E' :: _ => none
    | _ =>
      let n : Int := digitsToNat digits
      some (.vInt (if neg then -n else n), rest)

mutual

/-- A JSON value, leading whitespace allowed. -/
def jsonParseVal : Nat → List Char → Option (PyVal × List Char)
  | 0, _ => none
  | fuel + 1, cs =>
    match jsonSkipWs cs with
    | '{' :: rest =>
      match jsonSkipWs rest with
      | '}' :: rest' => some (.vDict [], rest')
      | rest' => jsonParseObj fuel rest' []
    | '[' :: rest =>
      match jsonSkipWs rest with
      | ']' :: rest' => some (.vList [], rest')
      | rest' => jsonParseArr fuel rest' []
    | '"' :: rest =>
      match jsonParseStrGo rest.length [] rest with
      | some (s, r) => some (.vStr s, r)
      | none => none
    | 't' :: 'r' :: 'u' :: 'e' :: rest => some (.vBool true, rest)
    | 'f' :: 'a' :: 'l' :: 's' :: 'e' :: rest => some (.vBool false, rest)
    | 'n' :: 'u' :: 'l' :: 'l' :: rest => some (.vNone, rest)
    | cs' => jsonParseNum cs'

/-- The members of a JSON object, positioned at a member's key. -/
def jsonParseObj : Nat → List Char → List (String × PyVal) →
    Option (PyVal × List Char)
  | 0, _, _ => none
  | fuel + 1, cs, acc =>
    match cs with
    | '"' :: rest =>
      match jsonParseStrGo rest.length [] rest with
      | some (k, r1) =>
        match jsonSkipWs r1 with
        | ':' :: r2 =>
          match jsonParseVal fuel r2 with
          | some (v, r3) =>
            match jsonSkipWs r3 with
            | ',' :: r4 => jsonParseObj fuel (jsonSkipWs r4) (acc ++ [(k, v)])
            | '}' :: r4 => some (.vDict (acc ++ [(k, v)]), r4)
            | _ => none
          | none => none
        | _ => none
      | none => none
    | _ => none

/-- The elements of a JSON array, positioned at an element. -/
def jsonParseArr : Nat → List Char → List PyVal → Option (PyVal × List Char)
  | 0, _, _ => none
  | fuel + 1, cs, acc =>
    match jsonParseVal fuel cs with
    | some (v, r1) =>
      match jsonSkipWs r1 with
      | ',' :: r2 => jsonParseArr fuel r2 (acc ++ [v])
      | ']' :: r2 => some (.vList (acc ++ [v]), r2)
      | _ => none
    | none => none

end

/-- `json.loads(s)`: parse one value, allow surrounding whitespace,
refuse trailing text.  The fuel bounds the call depth; every call edge
consumes at least one unit and the call tree of a parse is linear in
the input, so `8 * length + 64` never runs out on a parseable input. -/
def jsonParse (s : String) : Option PyVal :=
  match jsonParseVal (8 * s.data.length + 64) s.data with
  | some (v, rest) => if (jsonSkipWs rest).isEmpty then some v else none
  | none => none

/-! ## `ast.literal_eval`

The Python literal parser used by the third reconciliation fallback,
over the fragment those responses take: dicts with string-literal
keys, lists (trailing commas allowed), single- or double-quoted
strings with Python escape semantics (an unknown escape KEEPS the
backslash, unlike JSON), `True`/`False`/`None`, and integers. -/

/-- The body of a Python string literal after its opening quote. -/
def pyLitStrGo (quote : Char) : Nat → List Char → List Char →
    Option (String × List Char)
  | 0, _, _ => none
  | fuel + 1, acc, cs =>
    match cs with
    | [] => none
    | '\\' :: e :: rest =>
      match e with
      | '\\' => pyLitStrGo quote fuel ('\\' :: acc) rest
      | '\'' => pyLitStrGo quote fuel ('\'' :: acc) rest
      | '"' => pyLitStrGo quote fuel ('"' :: acc) rest
      | 'n' => pyLitStrGo quote fuel ('\n' :: acc) rest
      | 't' => pyLitStrGo quote fuel ('\t' :: acc) rest
      | 'r' => pyLitStrGo quote fuel ('\r' :: acc) rest
      | 'b' => pyLitStrGo quote fuel ('\x08' :: acc) rest
      | 'f' => pyLitStrGo quote fuel ('\x0c' :: acc) rest
      | 'a' => pyLitStrGo quote fuel ('\x07' :: acc) rest
      | 'v' => pyLitStrGo quote fuel ('\x0b' :: acc) rest
      | '0' => pyLitStrGo quote fuel ('\x00' :: acc) rest
      | _ => pyLitStrGo quote fuel (e :: '\\' :: acc) rest
    | c :: rest =>
      if c == quote then some (String.mk acc.reverse, rest)
      else if c == '\n' then none
      else pyLitStrGo quote fuel (c :: acc) rest

/-- A Python integer literal (optional minus, digits); a float suffix
is outside the modelled fragment. -/
def pyLitNum (cs : List Char) : Option (PyVal × List Char) :=
  let (neg, cs') := match cs with
    | '-' :: rest => (true, rest)
    | rest => (false, rest)
  let digits := cs'.takeWhile Char.isDigit
  let rest := cs'.dropWhile Char.isDigit
  if digits.isEmpty then none
  else
    match rest with
    | '.' :: _ => none
    | 'e' :: _ => none
    | 'E' :: _ => none
    | _ =>
      let n : Int := digitsToNat digits
      some (.vInt (if neg then -n else n), rest)

mutual

/-- A Python literal value, leading whitespace allowed. -/
def pyLitVal : Nat → List Char → Option (PyVal × List Char)
  | 0, _ => none
  | fuel + 1, cs =>
    match jsonSkipWs cs with
    | '{' :: rest =>
      match jsonSkipWs rest with
      | '}' :: rest' => some (.vDict [], rest')
      | rest' => pyLitObj fuel rest' []
    | '[' :: rest =>
      match jsonSkipWs rest with
      | ']' :: rest' => some (.vList [], rest')
      | rest' => pyLitArr fuel rest' []
    | '\'' :: rest =>
      match pyLitStrGo '\'' rest.length [] rest with
      | some (s, r) => some (.vStr s, r)
      | none => none
    | '"' :: rest =>
      match pyLitStrGo '"' rest.length [] rest with
      | some (s, r) => some (.vStr s, r)
      | none => none
    | 'T' :: 'r' :: 'u' :: 'e' :: rest => some (.vBool true, rest)
    | 'F' :: 'a' :: 'l' :: 's' :: 'e' :: rest => some (.vBool false, rest)
    | 'N' :: 'o' :: 'n' :: 'e' :: rest => some (.vNone, rest)
    | cs' => pyLitNum cs'

/-- The members of a Python dict display, positioned at a key.  Keys
outside string literals are not modelled. -/
def pyLitObj : Nat → List Char → List (String × PyVal) →
    Option (PyVal × List Char)
  | 0, _, _ => none
  | fuel + 1, cs, acc =>
    match pyLitVal fuel cs with
    | some (.vStr k, r1) =>
      match jsonSkipWs r1 with
      | ':' :: r2 =>
        match pyLitVal fuel r2 with
        | some (v, r3) =>
          match jsonSkipWs r3 with
          | ',' :: r4 =>
            match jsonSkipWs r4 with
            | '}' :: r5 => some (.vDict (acc ++ [(k, v)]), r5)
            | r5 => pyLitObj fuel r5 (acc ++ [(k, v)])
          | '}' :: r4 => some (.vDict (acc ++ [(k, v)]), r4)
          | _ => none
        | none => none
      | _ => none
    | _ => none

/-- The elements of a Python list display, positioned at an element. -/
def pyLitArr : Nat → List Char → List PyVal → Option (PyVal × List Char)
  | 0, _, _ => none
  | fuel + 1, cs, acc =>
    match pyLitVal fuel cs with
    | some (v, r1) =>
      match jsonSkipWs r1 with
      | ',' :: r2 =>
        match jsonSkipWs r2 with
        | ']' :: r3 => some (.vList (acc ++ [v]), r3)
        | r3 => pyLitArr fuel r3 (acc ++ [v])
      | ']' :: r2 => some (.vList (acc ++ [v]), r2)
      | _ => none
    | none => none

end

/-- `ast.literal_eval(s)` on the modelled fragment: parse one literal,
allow surrounding whitespace, refuse trailing text. -/
def pyLiteralEval (s : String) : Option PyVal :=
  match pyLitVal (8 * s.data.length + 64) s.data with
  | some (v, rest) => if (jsonSkipWs rest).isEmpty then some v else none
  | none => none

/-! ## The backend discharge route
(`privnurse_gemma3n/backend/routes/discharge_routes.py`) -/

namespace Routes

/-- The `None`-or-empty guard of `clean_text` (line 29): `text is None
or (hasattr(text, '__len__') and len(text) == 0)`.  Strings, lists and
dicts have `__len__`; `None`, numbers and booleans do not. -/
def isNoneOrEmptyLen : PyVal → Bool
  | .vNone => true
  | .vStr s => s == ""
  | .vList xs => xs.isEmpty
  | .vDict kvs => kvs.isEmpty
  | _ => false

/-- `clean_text` (routes, lines 27-40): the `None`/empty guard, then
stringify, drop `<p>`/`</p>`, strip, and escape the five XML-reserved
characters, ampersand first. -/
def clean_text (text : PyVal) : String :=
  if isNoneOrEmptyLen text then ""
  else escapeXmlChars (pyStrip (stripPTags (pyStrOf text)))

/-- `get_length_hint` (routes, lines 42-49): the `<1200` / `<2100`
character thresholds.  This variant takes the `int` its one caller
passes; it has no NaN or parse-failure path. -/
def get_length_hint (content_length : Int) : String :=
  if content_length < 1200 then "short"
  else if 1200 ≤ content_length ∧ content_length < 2100 then "medium"
  else "long"

/-- The four diagnosis buckets of `format_diagnosis_list`. -/
inductive Bucket where
  | primaryB
  | secondaryB
  | pastB
  | presentB
deriving Repr, DecidableEq

/-- The body of the per-entry loop of `format_diagnosis_list`
(lines 71-99 and identically 120-148): a dict entry is formatted from
its `diagnosis`/`code` fields and bucketed by substring match on its
lower-cased `category`; a non-dict entry is stringified into the
primary bucket.  `.lower()` on a non-string `category` value raises
`AttributeError` (`Except.error`), which the caller's handler turns
into whole-input degradation. -/
def classify_entry (d : PyVal) : Except Unit (Bucket × String) :=
  match d with
  | .vDict kvs =>
    match lookupKvD "category" kvs (.vStr "") with
    | .vStr cat =>
      let category := pyLower cat
      let diagnosisText := lookupKvD "diagnosis" kvs (.vStr "")
      let code := lookupKvD "code" kvs (.vStr "")
      let formatted :=
        if pyTruthy code ∧ pyTruthy diagnosisText then
          pyStrOf diagnosisText ++ " (" ++ pyStrOf code ++ ")"
        else if pyTruthy diagnosisText then pyStrOf diagnosisText
        else pyStrOf d
      let bucket :=
        if containsSubstring "primary" category then Bucket.primaryB
        else if containsSubstring "secondary" category then Bucket.secondaryB
        else if containsSubstring "past" category then Bucket.pastB
        else if containsSubstring "present" category ∨
            containsSubstring "current" category then Bucket.presentB
        else Bucket.secondaryB
      .ok (bucket, formatted)
    | _ => .error ()
  | _ => .ok (.primaryB, pyStrOf d)

/-- The whole entry loop: the four bucket lists in input order, or the
first entry-level exception. -/
def process_diagnosis_entries : List PyVal →
    Except Unit (List String × List String × List String × List String)
  | [] => .ok ([], [], [], [])
  | d :: ds =>
    match classify_entry d with
    | .error e => .error e
    | .ok (b, fmt) =>
      match process_diagnosis_entries ds with
      | .error e => .error e
      | .ok (p, s, pa, pr) =>
        match b with
        | .primaryB => .ok (fmt :: p, s, pa, pr)
        | .secondaryB => .ok (p, fmt :: s, pa, pr)
        | .pastB => .ok (p, s, fmt :: pa, pr)
        | .presentB => .ok (p, s, pa, fmt :: pr)

/-- The bucketing rule as the specification words it, for comparison
with the loop: the lower-cased category containing `primary` gives
Primary, otherwise `secondary` gives Secondary, otherwise `past` gives
Past, otherwise `present` or `current` gives Present, anything else
defaults to Secondary; a non-mapping entry goes to Primary. -/
def spec_bucket_of (d : PyVal) : Bucket :=
  match d with
  | .vDict kvs =>
    match lookupKvD "category" kvs (.vStr "") with
    | .vStr cat =>
      let category := pyLower cat
      if containsSubstring "primary" category then .primaryB
      else if containsSubstring "secondary" category then .secondaryB
      else if containsSubstring "past" category then .pastB
      else if containsSubstring "present" category ∨
          containsSubstring "current" category then .presentB
      else .secondaryB
    | _ => .secondaryB
  | _ => .primaryB

/-- The rendering rule as the specification words it: `diagnosis
(code)` when both are present, the diagnosis text alone when only it
is, the stringified entry otherwise; a non-mapping entry is
stringified. -/
def spec_render (d : PyVal) : String :=
  match d with
  | .vDict kvs =>
    let diagnosisText := lookupKvD "diagnosis" kvs (.vStr "")
    let code := lookupKvD "code" kvs (.vStr "")
    if pyTruthy code ∧ pyTruthy diagnosisText then
      pyStrOf diagnosisText ++ " (" ++ pyStrOf code ++ ")"
    else if pyTruthy diagnosisText then pyStrOf diagnosisText
    else pyStrOf d
  | _ => pyStrOf d

/-- The `diagnosis_data` argument of `format_diagnosis_list`:
a JSON-modelled value, or an arbitrary object whose `str()` yields the
given text — `none` when `str()` itself raises. -/
inductive DiagInput where
  | value (v : PyVal)
  | nonSerializable (strRepr : Option String)
deriving Repr

/-- `"; ".join(xs)`. -/
def joinSemis (xs : List String) : String := String.intercalate "; " xs

/-- `format_diagnosis_list` (routes, lines 51-166).  The string branch
JSON-parses and runs the loop (its `except` turns any loop failure
into `str(diagnosis_data)`, the original string); the list branch runs
the loop (the outer `except` turns a loop failure into
`str(diagnosis_data)`, falling back to a fixed message when even
`str()` raises); any other type is stringified into the primary
bucket; falsy input leaves all four buckets empty.  Each bucket is
`"; "`-joined and passed through `clean_text`. -/
def format_diagnosis_list (diagnosis_data : DiagInput) :
    String × String × String × String :=
  let raw : String × String × String × String :=
    match diagnosis_data with
    | .nonSerializable strRepr =>
      -- `str()` on the arbitrary object, retried inside the outer
      -- handler's own `try`, lines 158-164.
      match strRepr with
      | some s => (s, "", "", "")
      | none => ("Error parsing diagnosis data", "", "", "")
    | .value v =>
      if ¬ pyTruthy v then ("", "", "", "")
      else
        match v with
        | .vStr s =>
          match jsonParse s with
          | some (.vList entries) =>
            match process_diagnosis_entries entries with
            | .ok (p, se, pa, pr) =>
              (joinSemis p, joinSemis se, joinSemis pa, joinSemis pr)
            | .error _ => (s, "", "", "")
          | some parsed => (pyStrOf parsed, "", "", "")
          | none => (s, "", "", "")
        | .vList entries =>
          match process_diagnosis_entries entries with
          | .ok (p, se, pa, pr) =>
            (joinSemis p, joinSemis se, joinSemis pa, joinSemis pr)
          | .error _ => (pyStrOf v, "", "", "")
        | other => (pyStrOf other, "", "", "")
  (clean_text (.vStr raw.1), clean_text (.vStr raw.2.1),
   clean_text (.vStr raw.2.2.1), clean_text (.vStr raw.2.2.2))

/-- A `NursingNote` ORM row as `format_nursing_events` reads it. -/
structure NursingNote where
  record_time : Option Nat
  record_type : String
  content : PyVal
deriving Repr

/-- Python `s.split(sep)` for a one-character separator. -/
def splitOnChar (sep : Char) : List Char → List (List Char)
  | [] => [[]]
  | c :: rest =>
    match splitOnChar sep rest with
    | [] => [[c]]
    | g :: gs => if c == sep then [] :: g :: gs else (c :: g) :: gs

/-- Lines 183-195: the structured `type:...|value:...` vital-sign
format; when the markers are present the parts are scanned in order,
the last `type:`/`value:` part winning. -/
def vitalSignFields (recordType content : String) : String × String :=
  if containsSubstring "|" content ∧ containsSubstring "type:" content ∧
      containsSubstring "value:" content then
    (splitOnChar '|' content.data).foldl (fun acc part =>
      let ps := String.mk part
      if pyStartsWith "type:" ps then (pyStrip (pyReplace ps "type:" ""), acc.2)
      else if pyStartsWith "value:" ps then (acc.1, pyStrip (pyReplace ps "value:" ""))
      else acc) (recordType, content)
  else (recordType, content)

/-- The per-note event of `format_nursing_events` (lines 178-220),
given the note's non-null timestamp. -/
def nursingNoteEvent (note : NursingNote) (t : Nat) : Event :=
  let content := clean_text note.content
  if note.record_type == "VitalSign" then
    let tv := vitalSignFields note.record_type content
    ⟨t, "<NursingEvent timestamp=\"" ++ formatTimestamp t ++ "\">\n" ++
      "    <VitalSign type=\"" ++ tv.1 ++ "\" value=\"" ++ tv.2 ++ "\" />\n" ++
      "</NursingEvent>"⟩
  else
    let tag :=
      if note.record_type ∈ ["Subjective", "Objective", "Intervention", "Evaluation"]
      then note.record_type
      else "NarrativeNote"
    ⟨t, "<NursingEvent timestamp=\"" ++ formatTimestamp t ++ "\">\n" ++
      "    <SOAPNote>\n" ++ "    <" ++ tag ++ ">" ++ content ++ "</" ++ tag ++
      ">\n" ++ "    </SOAPNote>\n" ++ "</NursingEvent>"⟩

/-- `format_nursing_events` (routes, lines 168-225): a note whose
`record_time` is falsy is skipped (`continue`), every other note
yields exactly one event. -/
def format_nursing_events (notes : List NursingNote) : List Event :=
  notes.filterMap (fun note =>
    match note.record_time with
    | none => none
    | some t => some (nursingNoteEvent note t))

/-- A `LabReport` ORM row as `format_lab_events` reads it; `test_date`
is a non-null date (`YYYYMMDD` encoding) per the route's query. -/
structure LabReport where
  test_date : Nat
  test_name : PyVal
  result_value : PyVal
  result_unit : PyVal
  flag : PyVal
deriving Repr

/-- Lines 238-247: group the reports by `test_date` into a dict, whose
iteration order is first-occurrence insertion order. -/
def groupLabsByDate (reports : List LabReport) : List (Nat × List LabReport) :=
  reports.foldl (fun gs r =>
    if gs.any (fun g => g.1 == r.test_date) then
      gs.map (fun g => if g.1 == r.test_date then (g.1, g.2 ++ [r]) else g)
    else gs ++ [(r.test_date, [r])]) []

/-- One `<Item .../>` line of a lab group (lines 255-263): the unit is
appended cleaned when truthy; a truthy flag other than `'NORMAL'` is
appended raw in parentheses. -/
def labItemXml (r : LabReport) : String :=
  let testName := clean_text r.test_name
  let resultValue := clean_text r.result_value
  let resultValue :=
    if pyTruthy r.result_unit then resultValue ++ " " ++ clean_text r.result_unit
    else resultValue
  -- `report.flag != 'NORMAL'` is False only for the equal string
  let flagNotNormal : Bool :=
    match r.flag with
    | .vStr s => s ≠ "NORMAL"
    | _ => true
  let resultValue :=
    if pyTruthy r.flag ∧ flagNotNormal then
      resultValue ++ " (" ++ pyStrOf r.flag ++ ")"
    else resultValue
  "    <Item name=\"" ++ testName ++ "\">" ++ resultValue ++ "</Item>"

/-- `format_lab_events` (routes, lines 227-276): one event per date
group, timestamped at that date's midnight. -/
def format_lab_events (labReports : List LabReport) : List Event :=
  (groupLabsByDate labReports).map (fun g =>
    ⟨g.1 * 10000, "<LabReportGroup date=\"" ++ formatDate g.1 ++ "\">\n" ++
      String.intercalate "\n" (g.2.map labItemXml) ++ "\n</LabReportGroup>"⟩)

/-- A `ConsultationRecord` ORM row as `format_consultation_events`
reads it. -/
structure ConsultationRecord where
  consultation_date : Option Nat
  nurse_confirmation : PyVal
deriving Repr

/-- `format_consultation_events` (routes, lines 278-306): a record
with a falsy date is skipped; only the nurse confirmation is used and
a record whose cleaned confirmation is empty is skipped. -/
def format_consultation_events (consultations : List ConsultationRecord) :
    List Event :=
  consultations.filterMap (fun c =>
    match c.consultation_date with
    | none => none
    | some t =>
      let content :=
        if pyTruthy c.nurse_confirmation then clean_text c.nurse_confirmation
        else ""
      if content = "" then none
      else some ⟨t, "<Consultation timestamp=\"" ++ formatTimestamp t ++
        "\">\n    <Content>\n    " ++ content ++ "\n    </Content>\n</Consultation>"⟩)

/-- Lines 334-353 of `generate_discharge_xml`: events are collected by
extending in the order nursing, labs, consultations, and then sorted
stably by timestamp. -/
def generate_discharge_xml_events
    (nursingEvents labEvents consultationEvents : List Event) : List Event :=
  sortEventsByTimestamp (nursingEvents ++ labEvents ++ consultationEvents)

/-- Python `a or b`. -/
def pyOr (a b : PyVal) : PyVal := if pyTruthy a then a else b

/-- `generate_discharge_xml` (routes, lines 308-377), from the
diagnosis data, chief complaint and patient-notes values and the three
source row lists.  The `summary_length_style` hint is computed from
the character count of the f-string of line 360; the five summary tags
are emitted unconditionally by the template of lines 364-375. -/
def generate_discharge_xml (diagnosisData : DiagInput)
    (chiefComplaint patientNotes : PyVal)
    (nursingNotes : List NursingNote) (labReports : List LabReport)
    (consultations : List ConsultationRecord) : String :=
  let fd := format_diagnosis_list diagnosisData
  let primary := fd.1
  let secondary := fd.2.1
  let past := fd.2.2.1
  let presentFromDiag := fd.2.2.2
  -- lines 329-332: fall back to patient.notes when the diagnosis list
  -- yielded no present-illness text
  let presentIllness : PyVal :=
    if presentFromDiag ≠ "" then .vStr presentFromDiag else patientNotes
  let allEvents := generate_discharge_xml_events
    (format_nursing_events nursingNotes) (format_lab_events labReports)
    (format_consultation_events consultations)
  let sortedEventsXml := String.intercalate "\n" (allEvents.map (fun e => e.xml))
  let totalContent := pyStrOf (pyOr chiefComplaint (.vStr "")) ++ " " ++
    primary ++ " " ++ secondary ++ " " ++ past ++ " " ++
    pyStrOf presentIllness ++ " " ++ sortedEventsXml
  let lengthHint := get_length_hint totalContent.data.length
  "<PatientEncounter summary_length_style=\"" ++ lengthHint ++ "\">\n" ++
    "    <Summary>\n        " ++
    "<PrimaryDiagnosis>" ++ primary ++ "</PrimaryDiagnosis>\n        " ++
    "<SecondaryDiagnosis>" ++ secondary ++ "</SecondaryDiagnosis>\n        " ++
    "<PastMedicalHistory>" ++ past ++ "</PastMedicalHistory>\n        " ++
    "<ChiefComplaint>" ++ clean_text (pyOr chiefComplaint (.vStr "")) ++
    "</ChiefComplaint>\n        " ++
    "<PresentIllness>" ++ clean_text (pyOr presentIllness (.vStr "")) ++
    "</PresentIllness>\n    </Summary>\n    <ChronologicalEvents>\n        " ++
    sortedEventsXml ++ "\n    </ChronologicalEvents>\n</PatientEncounter>"

end Routes

/-! ## The Ollama reconciliation service
(`privnurse_gemma3n/backend/services/ollama_service.py`) -/

namespace Ollama

/-- The Python exception kinds the reconciler can raise. -/
inductive PyError where
  | jsonDecodeError
  | attributeError
deriving Repr, DecidableEq

/-- The fixed eight-entry escape-repair table of
`extract_relevant_text` (lines 242-255), applied with sequential
`str.replace` in source order.  (The `if old in fixed_response` guard
does not change the result of `replace`.) -/
def fix_escapes (s : String) : String :=
  pyReplace (pyReplace (pyReplace (pyReplace (pyReplace (pyReplace (pyReplace
    (pyReplace s "\\#" "#") "\\*" "*") "\\&" "&") "\\%" "%") "\\@" "@")
    "\\_" "_") "\\~" "~") "\\$" "$"

/-- `parsed_response.get('relevant_text')` (lines 226 and 263):
`None` when the key is absent, `AttributeError` when the parse result
is not a dict. -/
def dict_get_relevant (parsed : PyVal) : Except PyError (Option PyVal) :=
  match parsed with
  | .vDict kvs => .ok (lookupKv "relevant_text" kvs)
  | _ => .error .attributeError

/-- Python truthiness of a possibly-absent value (`if relevant_text:`
where `.get` may have returned `None`). -/
def pyTruthyOpt : Option PyVal → Bool
  | none => false
  | some v => pyTruthy v

/-- The third fallback of `extract_relevant_text` (lines 274-288):
normalise `true`/`false`/`null` everywhere in the repaired text by
plain `str.replace`, run `ast.literal_eval`, and return a truthy
`relevant_text`; every other outcome of this block — a failed parse,
an exception from `.get`, or a falsy `relevant_text` — falls through
to `raise e2`, the saved `json.JSONDecodeError`. -/
def step_three_normalize (s : String) : String :=
  pyReplace (pyReplace (pyReplace s "true" "True") "false" "False") "null" "None"

/-- The remainder of the third fallback after the token
normalisation. -/
def extract_step_three (fixedResponse : String) : Except PyError (Option PyVal) :=
  match pyLiteralEval (step_three_normalize fixedResponse) with
  | some parsed =>
    match dict_get_relevant parsed with
    | .ok r => if pyTruthyOpt r then .ok r else .error .jsonDecodeError
    | .error _ => .error .jsonDecodeError
  | none => .error .jsonDecodeError

/-- `extract_relevant_text` (lines 213-288): parse the response as
JSON and take `relevant_text`; only on `json.JSONDecodeError`, repair
the eight escapes and re-parse; only when that also fails, the
literal-evaluation fallback.  In the first two stages a non-dict parse
result raises `AttributeError` out of the function (nothing catches
it), and an absent `relevant_text` returns `None` without error. -/
def extract_relevant_text (full_response : String) : Except PyError (Option PyVal) :=
  match jsonParse full_response with
  | some parsed => dict_get_relevant parsed
  | none =>
    let fixedResponse := fix_escapes full_response
    match jsonParse fixedResponse with
    | some parsed => dict_get_relevant parsed
    | none => extract_step_three fixedResponse

/-- The three outcomes `validation_text` reports for one response. -/
inductive ValidationOutcome where
  | unparsableResponse
  | missingField
  | relevant (v : PyVal)
deriving Repr

/-- The reconciliation portion of `validation_text` (lines 140-155):
`except json.JSONDecodeError` returns the unparsable-response error
dict; a falsy `relevant_text` returns the missing-field error dict;
otherwise the spans are returned.  An `AttributeError` from
`extract_relevant_text` is caught by neither handler and propagates
(`Except.error`). -/
def validation_text_reconcile (full_response : String) :
    Except PyError ValidationOutcome :=
  match extract_relevant_text full_response with
  | .error .jsonDecodeError => .ok .unparsableResponse
  | .error e => .error e
  | .ok none => .ok .missingField
  | .ok (some v) =>
    if pyTruthy v then .ok (.relevant v) else .ok .missingField

end Ollama

/-! ## Theorems -/

/-- `eventLE` is transitive. -/
theorem eventLE_trans : ∀ a b c : Event,
    eventLE a b = true → eventLE b c = true → eventLE a c = true := by
  intro a b c hab hbc
  simp only [eventLE, decide_eq_true_eq] at *
  omega

/-- `eventLE` is total. -/
theorem eventLE_total : ∀ a b : Event, (eventLE a b || eventLE b a) = true := by
  intro a b
  simp only [eventLE, Bool.or_eq_true, decide_eq_true_eq]
  omega

/-- The stable sort yields a timestamp-sorted list. -/
theorem sortEventsByTimestamp_sorted (l : List Event) :
    List.Pairwise (fun a b => a.ts ≤ b.ts) (sortEventsByTimestamp l) := by
  have h := List.sorted_mergeSort eventLE_trans eventLE_total l
  exact h.imp (fun hab => by simpa [eventLE] using hab)

/-- Stability of the sort, as seen through any one timestamp: the
events carrying timestamp `t` appear in the sorted output exactly in
their input order. -/
theorem sortEventsByTimestamp_filter (l : List Event) (t : Nat) :
    (sortEventsByTimestamp l).filter (fun e => e.ts == t) =
      l.filter (fun e => e.ts == t) := by
  have hsub : (l.filter (fun e => e.ts == t)).Sublist (sortEventsByTimestamp l) := by
    apply List.sublist_mergeSort eventLE_trans eventLE_total
    · apply List.pairwise_of_forall_mem_list
      intro a ha b hb
      have ha' : a.ts = t := by simpa using (List.mem_filter.mp ha).2
      have hb' : b.ts = t := by simpa using (List.mem_filter.mp hb).2
      simp [eventLE, ha', hb']
    · exact List.filter_sublist l
  have hperm : ((sortEventsByTimestamp l).filter (fun e => e.ts == t)).Perm
      (l.filter (fun e => e.ts == t)) :=
    (List.mergeSort_perm l eventLE).filter _
  have hsub2 : (l.filter (fun e => e.ts == t)).Sublist
      ((sortEventsByTimestamp l).filter (fun e => e.ts == t)) := by
    have h := hsub.filter (fun e => e.ts == t)
    simpa [List.filter_filter] using h
  exact (hsub2.eq_of_length hperm.length_eq.symm).symm

/-- C1 (amended).  In both assemblers the events of the assembled
document are sorted non-decreasing by timestamp, and events sharing a
timestamp keep the order in which the sources were combined before
the stable sort: consultations, labs, nursing in the preprocessing
assembler, but nursing, labs, consultations in the live-request
assembler. -/
theorem assembled_events_sorted_stable_tie_order :
    (∀ consultEvents labEvents nursingEvents : List Event,
      List.Pairwise (fun a b => a.ts ≤ b.ts)
        (Preprocessing.process_patient_record_events
          consultEvents labEvents nursingEvents)) ∧
    (∀ consultEvents labEvents nursingEvents : List Event, ∀ t : Nat,
      (Preprocessing.process_patient_record_events
          consultEvents labEvents nursingEvents).filter (fun e => e.ts == t) =
        (consultEvents ++ labEvents ++ nursingEvents).filter (fun e => e.ts == t)) ∧
    (∀ nursingEvents labEvents consultationEvents : List Event,
      List.Pairwise (fun a b => a.ts ≤ b.ts)
        (Routes.generate_discharge_xml_events
          nursingEvents labEvents consultationEvents)) ∧
    (∀ nursingEvents labEvents consultationEvents : List Event, ∀ t : Nat,
      (Routes.generate_discharge_xml_events
          nursingEvents labEvents consultationEvents).filter (fun e => e.ts == t) =
        (nursingEvents ++ labEvents ++ consultationEvents).filter (fun e => e.ts == t)) := by
  refine ⟨?_, ?_, ?_, ?_⟩
  · intro c l n
    exact sortEventsByTimestamp_sorted _
  · intro c l n t
    exact sortEventsByTimestamp_filter _ t
  · intro nn ll cc
    exact sortEventsByTimestamp_sorted _
  · intro nn ll cc t
    exact sortEventsByTimestamp_filter _ t

/-- C1 (counterexample).  A nursing event and a consultation event
sharing one timestamp: the live-request assembler emits the nursing
event first, not the claimed consultations-first order. -/
theorem live_assembler_tie_order_counterexample :
    Routes.generate_discharge_xml_events
        [⟨202401011200, "N"⟩] [] [⟨202401011200, "C"⟩] =
      [⟨202401011200, "N"⟩, ⟨202401011200, "C"⟩] ∧
    ([⟨202401011200, "N"⟩, ⟨202401011200, "C"⟩] : List Event) ≠
      [⟨202401011200, "C"⟩, ⟨202401011200, "N"⟩] := by
  constructor
  · show sortEventsByTimestamp _ = _
    exact List.mergeSort_of_sorted (by decide)
  · decide

/-- C2 (amended).  The word-count variant classifies below 400 as
short, below 700 as medium, otherwise long, and yields `unknown` for
null and non-numeric input; the character-count variant classifies
below 1200 as short, below 2100 as medium, otherwise long (1199 gives
short, 1200 and 2099 give medium, 2100 gives long) and has no null or
non-numeric path.  Negative numeric input yields `short` in both
variants, not `unknown`. -/
theorem length_hint_thresholds :
    (∀ n : Int, n < 400 → Preprocessing.get_length_hint (.vInt n) = "short") ∧
    (∀ n : Int, 400 ≤ n → n < 700 →
      Preprocessing.get_length_hint (.vInt n) = "medium") ∧
    (∀ n : Int, 700 ≤ n → Preprocessing.get_length_hint (.vInt n) = "long") ∧
    Preprocessing.get_length_hint .vNone = "unknown" ∧
    Preprocessing.get_length_hint (.vStr "N/A") = "unknown" ∧
    Preprocessing.get_length_hint (.vList []) = "unknown" ∧
    (∀ n : Int, n < 1200 → Routes.get_length_hint n = "short") ∧
    (∀ n : Int, 1200 ≤ n → n < 2100 → Routes.get_length_hint n = "medium") ∧
    (∀ n : Int, 2100 ≤ n → Routes.get_length_hint n = "long") ∧
    Routes.get_length_hint 1199 = "short" ∧
    Routes.get_length_hint 1200 = "medium" ∧
    Routes.get_length_hint 2099 = "medium" ∧
    Routes.get_length_hint 2100 = "long" ∧
    Preprocessing.get_length_hint (.vInt (-5)) = "short" ∧
    Routes.get_length_hint (-5) = "short" := by
  refine ⟨?_, ?_, ?_, rfl, rfl, rfl, ?_, ?_, ?_, rfl, rfl, rfl, rfl, rfl, rfl⟩
  · intro n h
    simp [Preprocessing.get_length_hint, Preprocessing.pdIsNa, pyIntOf, h]
  · intro n h1 h2
    simp [Preprocessing.get_length_hint, Preprocessing.pdIsNa, pyIntOf, h2,
      show ¬ (n < 400) by omega]
  · intro n h
    simp [Preprocessing.get_length_hint, Preprocessing.pdIsNa, pyIntOf,
      show ¬ (n < 400) by omega, show ¬ (n < 700) by omega]
  · intro n h
    simp [Routes.get_length_hint, h]
  · intro n h1 h2
    simp [Routes.get_length_hint, h1, h2, show ¬ (n < 1200) by omega]
  · intro n h
    simp [Routes.get_length_hint, show ¬ (n < 1200) by omega,
      show ¬ (1200 ≤ n ∧ n < 2100) by omega]

/-- C2 (counterexample).  Negative input gives `short`, not the
claimed `unknown`, in both variants. -/
theorem length_hint_negative_counterexample :
    Preprocessing.get_length_hint (.vInt (-1)) = "short" ∧
    Routes.get_length_hint (-1) = "short" ∧
    ("short" : String) ≠ "unknown" := by
  exact ⟨rfl, rfl, by decide⟩

/-- C9.  The sanitizers: null gives empty text, `<p>`/`</p>` are
removed and surrounding whitespace trimmed, and the markup-escaping
variant escapes the five XML-reserved characters with ampersand first
(no double escaping of produced entities). -/
theorem clean_text_sanitizer :
    Preprocessing.clean_text .vNone = "" ∧
    Preprocessing.clean_text (.vStr "<p>foo</p>") = "foo" ∧
    Preprocessing.clean_text (.vStr "  a  b  ") = "a  b" ∧
    Routes.clean_text .vNone = "" ∧
    Routes.clean_text (.vStr "<p>foo</p>") = "foo" ∧
    Routes.clean_text (.vStr "A & B < C") = "A &amp; B &lt; C" ∧
    Routes.clean_text (.vStr "&<>\"'") = "&amp;&lt;&gt;&quot;&apos;" := by
  exact ⟨rfl, rfl, rfl, rfl, rfl, rfl, rfl⟩

/-- An event built by the preprocessing loop carries its row's parsed
timestamp. -/
theorem nursingEventXml_ts {r : Preprocessing.NursingRow} {t : Nat} {e : Event}
    (h : Preprocessing.nursingEventXml r t = some e) : e.ts = t := by
  simp only [Preprocessing.nursingEventXml] at h
  repeat' split at h
  all_goals cases h
  all_goals rfl

/-- An event built by the route's per-note builder carries the note's
timestamp. -/
theorem nursingNoteEvent_ts (note : Routes.NursingNote) (t : Nat) :
    (Routes.nursingNoteEvent note t).ts = t := by
  simp only [Routes.nursingNoteEvent]
  split <;> rfl

/-- C8.  A source row whose timestamp is missing or unparseable yields
no event (and no error), leaves the other rows' events unchanged, and
every emitted event carries a timestamp parsed from some row — never a
default — in both the preprocessing and the route formatter. -/
theorem timestampless_rows_skipped :
    (∀ (pre post : List Preprocessing.NursingRow) (r : Preprocessing.NursingRow),
      Preprocessing.rowTimestamp r = none →
      Preprocessing.format_nursing_events (pre ++ r :: post) =
        Preprocessing.format_nursing_events (pre ++ post)) ∧
    (∀ (rows : List Preprocessing.NursingRow) (e : Event),
      e ∈ Preprocessing.format_nursing_events rows →
      ∃ r ∈ rows, Preprocessing.rowTimestamp r = some e.ts) ∧
    (∀ (pre post : List Routes.NursingNote) (note : Routes.NursingNote),
      note.record_time = none →
      Routes.format_nursing_events (pre ++ note :: post) =
        Routes.format_nursing_events (pre ++ post)) ∧
    (∀ (notes : List Routes.NursingNote) (e : Event),
      e ∈ Routes.format_nursing_events notes →
      ∃ note ∈ notes, note.record_time = some e.ts) := by
  refine ⟨?_, ?_, ?_, ?_⟩
  · intro pre post r h
    simp [Preprocessing.format_nursing_events, List.map_append,
      List.filterMap_append, h]
  · intro rows e he
    simp only [Preprocessing.format_nursing_events] at he
    obtain ⟨⟨r', t⟩, hmem, hbuild⟩ := List.mem_filterMap.mp he
    obtain ⟨⟨r'', ts?⟩, hmem2, hmap⟩ := List.mem_filterMap.mp hmem
    obtain ⟨r, hr, heq⟩ := List.mem_map.mp hmem2
    cases ts? with
    | none => simp at hmap
    | some t' =>
      simp only [Option.map_some', Option.some.injEq, Prod.mk.injEq] at hmap
      obtain ⟨hr2, ht2⟩ := hmap
      have h1 : Preprocessing.rowTimestamp r = some t' := by
        have h2 := congrArg Prod.snd heq
        simpa using h2
      have h3 : e.ts = t := nursingEventXml_ts hbuild
      exact ⟨r, hr, by rw [h1, ht2, h3]⟩
  · intro pre post note h
    simp [Routes.format_nursing_events, List.filterMap_append, h]
  · intro notes e he
    simp only [Routes.format_nursing_events] at he
    obtain ⟨note, hmem, hbuild⟩ := List.mem_filterMap.mp he
    cases hrt : note.record_time with
    | none =>
      rw [hrt] at hbuild
      simp at hbuild
    | some t =>
      rw [hrt] at hbuild
      simp only [Option.some.injEq] at hbuild
      exact ⟨note, hmem, by rw [hrt, ← hbuild, nursingNoteEvent_ts]⟩

/-- A list is an infix of itself followed by anything. -/
theorem infix_start' {α : Type} (m rest : List α) : m <:+: m ++ rest :=
  ⟨[], rest, by simp⟩

/-- Prepending preserves being an infix. -/
theorem infix_step' {α : Type} (a : List α) {m r : List α} (h : m <:+: r) :
    m <:+: a ++ r := by
  obtain ⟨s, t, rfl⟩ := h
  exact ⟨a ++ s, t, by simp [List.append_assoc]⟩

/-- C3 (amended).  The live-request builder emits all five summary
tags for every input, even when their content is empty; the
preprocessing builder instead omits a tag whose cleaned field is
empty: an all-empty summary row yields a document containing no
summary tag at all. -/
theorem summary_tags_presence :
    (∀ (dd : Routes.DiagInput) (cc pn : PyVal) (ns : List Routes.NursingNote)
      (ls : List Routes.LabReport) (cs : List Routes.ConsultationRecord),
      ("<PrimaryDiagnosis>" : String).data <:+:
        (Routes.generate_discharge_xml dd cc pn ns ls cs).data) ∧
    (∀ (dd : Routes.DiagInput) (cc pn : PyVal) (ns : List Routes.NursingNote)
      (ls : List Routes.LabReport) (cs : List Routes.ConsultationRecord),
      ("<SecondaryDiagnosis>" : String).data <:+:
        (Routes.generate_discharge_xml dd cc pn ns ls cs).data) ∧
    (∀ (dd : Routes.DiagInput) (cc pn : PyVal) (ns : List Routes.NursingNote)
      (ls : List Routes.LabReport) (cs : List Routes.ConsultationRecord),
      ("<PastMedicalHistory>" : String).data <:+:
        (Routes.generate_discharge_xml dd cc pn ns ls cs).data) ∧
    (∀ (dd : Routes.DiagInput) (cc pn : PyVal) (ns : List Routes.NursingNote)
      (ls : List Routes.LabReport) (cs : List Routes.ConsultationRecord),
      ("<ChiefComplaint>" : String).data <:+:
        (Routes.generate_discharge_xml dd cc pn ns ls cs).data) ∧
    (∀ (dd : Routes.DiagInput) (cc pn : PyVal) (ns : List Routes.NursingNote)
      (ls : List Routes.LabReport) (cs : List Routes.ConsultationRecord),
      ("<PresentIllness>" : String).data <:+:
        (Routes.generate_discharge_xml dd cc pn ns ls cs).data) ∧
    (Preprocessing.build_input_text ⟨.vNone, .vNone, .vNone, .vNone, .vNone⟩
        "" "unknown" =
      "<PatientEncounter summary_length_style=\"unknown\">\n    <Summary>\n        \n    </Summary>\n    <ChronologicalEvents>\n        \n    </ChronologicalEvents>\n</PatientEncounter>") := by
  refine ⟨?_, ?_, ?_, ?_, ?_, rfl⟩
  · intro dd cc pn ns ls cs
    simp only [Routes.generate_discharge_xml, String.data_append, List.append_assoc]
    exact infix_step' _ (infix_step' _ (infix_step' _ (infix_step' _
      (infix_start' _ _))))
  · intro dd cc pn ns ls cs
    simp only [Routes.generate_discharge_xml, String.data_append, List.append_assoc]
    exact infix_step' _ (infix_step' _ (infix_step' _ (infix_step' _ (infix_step' _
      (infix_step' _ (infix_step' _ (infix_start' _ _)))))))
  · intro dd cc pn ns ls cs
    simp only [Routes.generate_discharge_xml, String.data_append, List.append_assoc]
    exact infix_step' _ (infix_step' _ (infix_step' _ (infix_step' _ (infix_step' _
      (infix_step' _ (infix_step' _ (infix_step' _ (infix_step' _ (infix_step' _
      (infix_start' _ _))))))))))
  · intro dd cc pn ns ls cs
    simp only [Routes.generate_discharge_xml, String.data_append, List.append_assoc]
    exact infix_step' _ (infix_step' _ (infix_step' _ (infix_step' _ (infix_step' _
      (infix_step' _ (infix_step' _ (infix_step' _ (infix_step' _ (infix_step' _
      (infix_step' _ (infix_step' _ (infix_step' _ (infix_start' _ _)))))))))))))
  · intro dd cc pn ns ls cs
    simp only [Routes.generate_discharge_xml, String.data_append, List.append_assoc]
    exact infix_step' _ (infix_step' _ (infix_step' _ (infix_step' _ (infix_step' _
      (infix_step' _ (infix_step' _ (infix_step' _ (infix_step' _ (infix_step' _
      (infix_step' _ (infix_step' _ (infix_step' _ (infix_step' _ (infix_step' _
      (infix_step' _ (infix_start' _ _))))))))))))))))

set_option maxRecDepth 8000 in
/-- C3 (counterexample).  The preprocessing builder omits the
`<ChiefComplaint>` tag (and every other summary tag) when the field is
empty, against the claim that an empty field renders as an empty tag
in both builders. -/
theorem preprocessing_empty_tag_omitted_counterexample :
    ¬ (("<ChiefComplaint>" : String).data <:+:
      (Preprocessing.build_input_text ⟨.vNone, .vNone, .vNone, .vNone, .vNone⟩
        "" "unknown").data) := by
  decide

/-- A successful `classify_entry` computes exactly the
specification's bucket and rendering. -/
theorem classify_entry_spec {d : PyVal} {b : Routes.Bucket} {fmt : String}
    (h : Routes.classify_entry d = .ok (b, fmt)) :
    b = Routes.spec_bucket_of d ∧ fmt = Routes.spec_render d := by
  cases d with
  | vDict kvs =>
    simp only [Routes.classify_entry] at h
    split at h
    case h_1 cat heq =>
      simp only [Except.ok.injEq, Prod.mk.injEq] at h
      obtain ⟨hb, hf⟩ := h
      constructor
      · rw [← hb]
        simp only [Routes.spec_bucket_of, heq]
      · rw [← hf]
        simp only [Routes.spec_render]
    case h_2 => cases h
  | vNone => exact ⟨by cases h; rfl, by cases h; rfl⟩
  | vBool b' => exact ⟨by cases h; rfl, by cases h; rfl⟩
  | vInt n => exact ⟨by cases h; rfl, by cases h; rfl⟩
  | vStr s => exact ⟨by cases h; rfl, by cases h; rfl⟩
  | vList xs => exact ⟨by cases h; rfl, by cases h; rfl⟩

/-- The entry loop, described bucket by bucket: each bucket list is
the rendering of the entries the specification assigns to it, kept in
input order. -/
theorem process_diagnosis_entries_spec :
    ∀ (entries : List PyVal) (p s pa pr : List String),
    Routes.process_diagnosis_entries entries = .ok (p, s, pa, pr) →
    p = (entries.filter
        (fun d => Routes.spec_bucket_of d == .primaryB)).map Routes.spec_render ∧
    s = (entries.filter
        (fun d => Routes.spec_bucket_of d == .secondaryB)).map Routes.spec_render ∧
    pa = (entries.filter
        (fun d => Routes.spec_bucket_of d == .pastB)).map Routes.spec_render ∧
    pr = (entries.filter
        (fun d => Routes.spec_bucket_of d == .presentB)).map Routes.spec_render := by
  intro entries
  induction entries with
  | nil =>
    intro p s pa pr h
    simp only [Routes.process_diagnosis_entries, Except.ok.injEq,
      Prod.mk.injEq] at h
    obtain ⟨h1, h2, h3, h4⟩ := h
    simp [← h1, ← h2, ← h3, ← h4]
  | cons d ds ih =>
    intro p s pa pr h
    simp only [Routes.process_diagnosis_entries] at h
    cases hc : Routes.classify_entry d with
    | error e => rw [hc] at h; cases h
    | ok bf =>
      obtain ⟨b, fmt⟩ := bf
      rw [hc] at h
      cases hp : Routes.process_diagnosis_entries ds with
      | error e => rw [hp] at h; cases h
      | ok quad =>
        obtain ⟨p', s', pa', pr'⟩ := quad
        rw [hp] at h
        obtain ⟨hb, hf⟩ := classify_entry_spec hc
        obtain ⟨h1, h2, h3, h4⟩ := ih p' s' pa' pr' hp
        cases b with
        | primaryB =>
          simp only [Except.ok.injEq, Prod.mk.injEq] at h
          obtain ⟨e1, e2, e3, e4⟩ := h
          simp [List.filter_cons, ← hb, ← e1, ← e2, ← e3, ← e4, h1, h2, h3, h4, hf]
        | secondaryB =>
          simp only [Except.ok.injEq, Prod.mk.injEq] at h
          obtain ⟨e1, e2, e3, e4⟩ := h
          simp [List.filter_cons, ← hb, ← e1, ← e2, ← e3, ← e4, h1, h2, h3, h4, hf]
        | pastB =>
          simp only [Except.ok.injEq, Prod.mk.injEq] at h
          obtain ⟨e1, e2, e3, e4⟩ := h
          simp [List.filter_cons, ← hb, ← e1, ← e2, ← e3, ← e4, h1, h2, h3, h4, hf]
        | presentB =>
          simp only [Except.ok.injEq, Prod.mk.injEq] at h
          obtain ⟨e1, e2, e3, e4⟩ := h
          simp [List.filter_cons, ← hb, ← e1, ← e2, ← e3, ← e4, h1, h2, h3, h4, hf]

/-- C6.  Diagnosis normalisation buckets each mapping entry by
substring match on its lower-cased category (primary, else secondary,
else past, else present/current, defaulting to Secondary), renders
`diagnosis (code)` / the diagnosis alone / the stringified entry,
joins each bucket with `"; "` in input order, and sends a non-mapping
entry, stringified, to Primary; in particular the Past-history example
lands in the Past bucket and the unknown-category example defaults to
Secondary. -/
theorem diagnosis_bucketing :
    (∀ (entries : List PyVal) (p s pa pr : List String),
      Routes.process_diagnosis_entries entries = .ok (p, s, pa, pr) →
      p = (entries.filter
          (fun d => Routes.spec_bucket_of d == .primaryB)).map Routes.spec_render ∧
      s = (entries.filter
          (fun d => Routes.spec_bucket_of d == .secondaryB)).map Routes.spec_render ∧
      pa = (entries.filter
          (fun d => Routes.spec_bucket_of d == .pastB)).map Routes.spec_render ∧
      pr = (entries.filter
          (fun d => Routes.spec_bucket_of d == .presentB)).map Routes.spec_render) ∧
    Routes.format_diagnosis_list (.value (.vList
      [.vDict [("category", .vStr "Past Medical History"),
               ("diagnosis", .vStr "DM"), ("code", .vStr "E11")]])) =
      ("", "", "DM (E11)", "") ∧
    Routes.format_diagnosis_list (.value (.vList
      [.vDict [("category", .vStr "unknown"), ("diagnosis", .vStr "X")]])) =
      ("", "X", "", "") ∧
    Routes.format_diagnosis_list (.value (.vList
      [.vDict [("category", .vStr "Secondary"), ("diagnosis", .vStr "A")],
       .vDict [("category", .vStr "something else"), ("diagnosis", .vStr "B")]])) =
      ("", "A; B", "", "") ∧
    Routes.format_diagnosis_list (.value (.vList [.vStr "hello"])) =
      ("hello", "", "", "") := by
  exact ⟨process_diagnosis_entries_spec, rfl, rfl, rfl, rfl⟩

/-- C7.  Diagnosis normalisation always returns four text values —
the embedding is a total function, every modelled exception being
caught inside it — and degrades failures instead of propagating them:
an entry-level exception degrades the whole input to its
stringification in the primary bucket, an unstringifiable object
degrades to a fixed message, a non-JSON string and a non-list value
land stringified in the primary bucket, and falsy input yields four
empty texts. -/
theorem diagnosis_error_degradation :
    (∀ entries : List PyVal,
      Routes.process_diagnosis_entries entries = .error () →
      Routes.format_diagnosis_list (.value (.vList entries)) =
        (Routes.clean_text (.vStr (pyStrOf (.vList entries))), "", "", "")) ∧
    Routes.format_diagnosis_list (.nonSerializable none) =
      ("Error parsing diagnosis data", "", "", "") ∧
    Routes.format_diagnosis_list (.nonSerializable (some "<odd object>")) =
      ("&lt;odd object&gt;", "", "", "") ∧
    Routes.format_diagnosis_list (.value (.vStr "not json")) =
      ("not json", "", "", "") ∧
    Routes.format_diagnosis_list (.value (.vInt 42)) = ("42", "", "", "") ∧
    Routes.format_diagnosis_list (.value (.vList [.vDict [("category", .vInt 3)]])) =
      ("[\x7b&apos;category&apos;: 3\x7d]", "", "", "") ∧
    Routes.format_diagnosis_list (.value (.vStr "[\x7b\"category\": 3\x7d]")) =
      ("[\x7b&quot;category&quot;: 3\x7d]", "", "", "") ∧
    Routes.format_diagnosis_list (.value .vNone) = ("", "", "", "") := by
  refine ⟨?_, rfl, rfl, rfl, rfl, rfl, rfl, rfl⟩
  intro entries h
  cases entries with
  | nil => simp [Routes.process_diagnosis_entries] at h
  | cons d ds =>
    simp only [Routes.format_diagnosis_list, pyTruthy, List.isEmpty_cons, h]
    simp [Routes.clean_text, Routes.isNoneOrEmptyLen]

/-- C4.  The reconciler tries its strategies strictly in order: a
successful JSON parse settles the result from its `relevant_text`
field (a valid JSON object round-trips exactly); only on a parse
failure is the eight-entry repair table applied and the text re-parsed
(the `\#` example is repaired to `50#tab` rather than failing); only
when that also fails does the literal-evaluation fallback run. -/
theorem extract_relevant_text_strategy_order :
    (∀ (s : String) (v : PyVal), jsonParse s = some v →
      Ollama.extract_relevant_text s = Ollama.dict_get_relevant v) ∧
    Ollama.extract_relevant_text "\x7b\"relevant_text\": [\"a\", \"b\"]\x7d" =
      .ok (some (.vList [.vStr "a", .vStr "b"])) ∧
    (∀ (s : String) (v : PyVal), jsonParse s = none →
      jsonParse (Ollama.fix_escapes s) = some v →
      Ollama.extract_relevant_text s = Ollama.dict_get_relevant v) ∧
    (jsonParse "\x7b\"relevant_text\": [\"50\\#tab\"]\x7d" = none ∧
      Ollama.extract_relevant_text "\x7b\"relevant_text\": [\"50\\#tab\"]\x7d" =
        .ok (some (.vList [.vStr "50#tab"]))) ∧
    (∀ s : String, jsonParse s = none → jsonParse (Ollama.fix_escapes s) = none →
      Ollama.extract_relevant_text s =
        Ollama.extract_step_three (Ollama.fix_escapes s)) := by
  refine ⟨?_, rfl, ?_, ⟨rfl, rfl⟩, ?_⟩
  · intro s v h
    simp only [Ollama.extract_relevant_text, h]
  · intro s v h1 h2
    simp only [Ollama.extract_relevant_text, h1, h2]
  · intro s h1 h2
    simp only [Ollama.extract_relevant_text, h1, h2]

/-- C5 (amended).  A first- or second-stage JSON parse yielding an
object distinguishes a missing or empty `relevant_text` (the
missing-field error) from a parse failure; a parse success with
non-empty `relevant_text` returns the spans with no error; when every
strategy fails the result is the unparsable-response error; but when
only the third, literal-evaluation strategy parses and
`relevant_text` is absent or empty, the code falls through to the
saved decode error and reports unparsable-response, not
missing-field. -/
theorem validation_error_kinds :
    (∀ (s : String) (kvs : List (String × PyVal)),
      jsonParse s = some (.vDict kvs) →
      Ollama.pyTruthyOpt (lookupKv "relevant_text" kvs) = false →
      Ollama.validation_text_reconcile s = .ok .missingField) ∧
    (∀ (s : String) (kvs : List (String × PyVal)) (v : PyVal),
      jsonParse s = some (.vDict kvs) →
      lookupKv "relevant_text" kvs = some v → pyTruthy v = true →
      Ollama.validation_text_reconcile s = .ok (.relevant v)) ∧
    (∀ (s : String) (kvs : List (String × PyVal)),
      jsonParse s = none → jsonParse (Ollama.fix_escapes s) = some (.vDict kvs) →
      Ollama.pyTruthyOpt (lookupKv "relevant_text" kvs) = false →
      Ollama.validation_text_reconcile s = .ok .missingField) ∧
    (∀ s : String, jsonParse s = none → jsonParse (Ollama.fix_escapes s) = none →
      pyLiteralEval (Ollama.step_three_normalize (Ollama.fix_escapes s)) = none →
      Ollama.validation_text_reconcile s = .ok .unparsableResponse) ∧
    (∀ (s : String) (kvs : List (String × PyVal)),
      jsonParse s = none → jsonParse (Ollama.fix_escapes s) = none →
      pyLiteralEval (Ollama.step_three_normalize (Ollama.fix_escapes s)) =
        some (.vDict kvs) →
      Ollama.pyTruthyOpt (lookupKv "relevant_text" kvs) = false →
      Ollama.validation_text_reconcile s = .ok .unparsableResponse) := by
  refine ⟨?_, ?_, ?_, ?_, ?_⟩
  · intro s kvs h1 h2
    simp only [Ollama.validation_text_reconcile, Ollama.extract_relevant_text, h1,
      Ollama.dict_get_relevant]
    cases hr : lookupKv "relevant_text" kvs with
    | none => rfl
    | some v =>
      rw [hr] at h2
      simp only [Ollama.pyTruthyOpt] at h2
      simp [h2]
  · intro s kvs v h1 h2 h3
    simp only [Ollama.validation_text_reconcile, Ollama.extract_relevant_text, h1,
      Ollama.dict_get_relevant, h2]
    simp [h3]
  · intro s kvs h1 h2 h3
    simp only [Ollama.validation_text_reconcile, Ollama.extract_relevant_text, h1,
      h2, Ollama.dict_get_relevant]
    cases hr : lookupKv "relevant_text" kvs with
    | none => rfl
    | some v =>
      rw [hr] at h3
      simp only [Ollama.pyTruthyOpt] at h3
      simp [h3]
  · intro s h1 h2 h3
    simp only [Ollama.validation_text_reconcile, Ollama.extract_relevant_text, h1,
      h2, Ollama.extract_step_three, h3]
  · intro s kvs h1 h2 h3 h4
    simp only [Ollama.validation_text_reconcile, Ollama.extract_relevant_text, h1,
      h2, Ollama.extract_step_three, h3, Ollama.dict_get_relevant, h4]
    rfl

/-- C5 (counterexample).  `\x7b'a': 1\x7d` is parsed structurally by
the third strategy and lacks `relevant_text`, yet the reconciliation
reports the unparsable-response error, not the claimed distinct
missing-field error. -/
theorem validation_missing_field_counterexample :
    jsonParse "\x7b'a': 1\x7d" = none ∧
    Ollama.fix_escapes "\x7b'a': 1\x7d" = "\x7b'a': 1\x7d" ∧
    Ollama.step_three_normalize "\x7b'a': 1\x7d" = "\x7b'a': 1\x7d" ∧
    pyLiteralEval "\x7b'a': 1\x7d" = some (.vDict [("a", .vInt 1)]) ∧
    lookupKv "relevant_text" [("a", .vInt 1)] = none ∧
    Ollama.validation_text_reconcile "\x7b'a': 1\x7d" = .ok .unparsableResponse ∧
    (Except.ok Ollama.ValidationOutcome.unparsableResponse ≠
      (Except.ok .missingField : Except Ollama.PyError Ollama.ValidationOutcome)) := by
  exact ⟨rfl, rfl, rfl, rfl, rfl, rfl,
    fun h => Ollama.ValidationOutcome.noConfusion (Except.ok.inj h)⟩

/-- C10.  The literal-evaluation fallback replaces the tokens
`true`/`false`/`null` everywhere in the repaired text, inside string
spans included, before evaluating: the word `construed` inside a span
becomes `consTrued`, so the returned spans differ from the spans the
original response encodes. -/
theorem step_three_token_normalization_corrupts_spans :
    pyReplace "may be construed" "true" "True" = "may be consTrued" ∧
    jsonParse "\x7b'relevant_text': ['may be construed']\x7d" = none ∧
    Ollama.fix_escapes "\x7b'relevant_text': ['may be construed']\x7d" =
      "\x7b'relevant_text': ['may be construed']\x7d" ∧
    pyLiteralEval "\x7b'relevant_text': ['may be construed']\x7d" =
      some (.vDict [("relevant_text", .vList [.vStr "may be construed"])]) ∧
    Ollama.extract_relevant_text "\x7b'relevant_text': ['may be construed']\x7d" =
      .ok (some (.vList [.vStr "may be consTrued"])) ∧
    ("may be consTrued" : String) ≠ "may be construed" := by
  exact ⟨rfl, rfl, rfl, rfl, rfl, by decide⟩

end PrivNurse
